import Mathlib

/-!
Verification of the query-resolution pipeline of the refract backend
(src/api/index.py, src/gemini_sql.py, src/supabase_manager.py) via a
shallow embedding: Python strings become `String`, dict rows become
association lists, exceptions become `Except`/an explicit constructor,
and the external model/database clients become parameters describing
their observable behaviour for one request.
-/

/-! ## Python string primitives

The helpers below model the exact Python string operations the source
uses: `in` (substring test), `.lower()` (ASCII case folding suffices for
every keyword the code tests), `.strip()`, `.rstrip(';')`, `.startswith`,
`.endswith`, and list slicing `lst[:k]` including negative `k`. -/

/-- Characters Python's `str.strip()` removes. -/
def pySpace (c : Char) : Bool :=
  c = ' ' || c = '\t' || c = '\n' || c = '\r' || c = '\x0b' || c = '\x0c'

/-- ASCII case folding of one character, as Python `str.lower()` does on ASCII. -/
def pyLowerChar (c : Char) : Char :=
  if 65 ≤ c.toNat && c.toNat ≤ 90 then Char.ofNat (c.toNat + 32) else c

/-- Python `s.lower()` (restricted to ASCII folding, which covers every
keyword the source compares against). -/
def pyLower (s : String) : String := String.mk (s.data.map pyLowerChar)

/-- Python `s.strip()`. -/
def pyStrip (s : String) : String :=
  String.mk (((s.data.dropWhile pySpace).reverse.dropWhile pySpace).reverse)

/-- Python `s.rstrip(';')`. -/
def pyRstripSemi (s : String) : String :=
  String.mk ((s.data.reverse.dropWhile (fun c => c = ';')).reverse)

/-- Python `pat in s`: substring containment. -/
def pyIn (pat s : String) : Bool := decide (pat.data <:+: s.data)

/-- Python `s.startswith(pat)`. -/
def pyStartsWith (pat s : String) : Bool := decide (pat.data <+: s.data)

/-- Python `s.endswith(pat)`. -/
def pyEndsWith (pat s : String) : Bool := decide (pat.data <:+ s.data)

/-- Python `s[k:]` for a nonnegative `k`. -/
def pyDropStr (k : Nat) (s : String) : String := String.mk (s.data.drop k)

/-- Python `s[:-k]` for a positive `k`: drop the last `k` characters. -/
def pyDropRightStr (k : Nat) (s : String) : String :=
  String.mk (s.data.take (s.data.length - k))

/-- Python `lst[:k]` for an arbitrary integer `k`: a nonnegative `k` keeps the
first `k` elements, a negative `k` drops the last `|k|` elements. -/
def pyTake {α : Type} (l : List α) (k : Int) : List α :=
  if 0 ≤ k then l.take k.toNat else l.take (l.length - k.natAbs)

/-- A substring occurrence somewhere in `s` is in particular not ruled out by
looking at the front: no occurrence at all means no occurrence at the start. -/
theorem pyIn_false_pyStartsWith_false (pat s : String) (h : pyIn pat s = false) :
    pyStartsWith pat s = false := by
  simp only [pyIn, decide_eq_false_iff_not] at h
  simp only [pyStartsWith, decide_eq_false_iff_not]
  exact fun hp => h hp.isInfix

/-! ## Fallback Rule Matcher (src/api/index.py, `_get_fallback_sql`) -/

/-- `_get_fallback_sql` from src/api/index.py lines 78-116: the ordered
keyword rule table producing canned SQL, `none` when no rule matches. -/
def _get_fallback_sql (query : String) : Option String :=
  let query_lower := pyStrip (pyLower query)
  if pyIn "show" query_lower && pyIn "customer" query_lower then
    some "SELECT * FROM customers LIMIT 10"
  else if pyIn "count" query_lower && pyIn "customer" query_lower then
    some "SELECT COUNT(*) as count FROM customers"
  else if pyIn "list" query_lower && pyIn "customer" query_lower then
    some "SELECT * FROM customers LIMIT 10"
  else if pyIn "all customer" query_lower then
    some "SELECT * FROM customers"
  else if pyIn "customer" query_lower && (pyIn "high" query_lower || pyIn "revenue" query_lower) then
    some "SELECT * FROM customers WHERE revenue > 10000 ORDER BY revenue DESC LIMIT 10"
  else if pyIn "customer" query_lower then
    some "SELECT * FROM customers LIMIT 10"
  else if pyIn "show" query_lower && pyIn "order" query_lower then
    some "SELECT * FROM orders LIMIT 10"
  else if pyIn "count" query_lower && pyIn "order" query_lower then
    some "SELECT COUNT(*) as count FROM orders"
  else if pyIn "list" query_lower && pyIn "order" query_lower then
    some "SELECT * FROM orders LIMIT 10"
  else if pyIn "all order" query_lower then
    some "SELECT * FROM orders"
  else if pyIn "order" query_lower then
    some "SELECT * FROM orders LIMIT 10"
  else if pyIn "show" query_lower then
    some "SELECT * FROM customers LIMIT 5"
  else if pyIn "count" query_lower then
    some "SELECT COUNT(*) as count FROM customers"
  else if pyIn "list" query_lower then
    some "SELECT * FROM customers LIMIT 5"
  else
    none

/-! ## JSON-like row values

A result row is a Python dict from column names to scalar or list values.
Numeric literals of the source (ints and two-decimal floats) are carried
as rationals. -/

deriving instance DecidableEq for Except

/-- A scalar or list value of a result row. -/
inductive JValue : Type
  | s (v : String)
  | num (v : ℚ)
  | arr (v : List String)
deriving DecidableEq

/-- A result row: a Python dict as an association list in insertion order. -/
abbrev Row : Type := List (String × JValue)

/-! ## SQL Translator (src/gemini_sql.py, `GeminiTextToSQL.generate_sql`)

The hosted model is a black box: its observable behaviour for one call is
either a reply text or a raised exception with a message, which we pass in
as an `Except String String`. -/

/-- `GeminiTextToSQL.generate_sql` from src/gemini_sql.py lines 96-111,
starting at the `try` around the model call: on a reply, strip code fences
and surrounding whitespace; on an exception `e`, return the sentinel
`"ERROR: Failed to generate SQL - " ++ e` instead of raising. -/
def generate_sql (modelResp : Except String String) : String :=
  match modelResp with
  | .ok text =>
    let sql := pyStrip text
    let sql := if pyStartsWith "```sql" sql then pyDropStr 6 sql else sql
    let sql := if pyStartsWith "```" sql then pyDropStr 3 sql else sql
    let sql := if pyEndsWith "```" sql then pyDropRightStr 3 sql else sql
    pyStrip sql
  | .error e => "ERROR: Failed to generate SQL - " ++ e

/-! ## Mock-mode Query Executor (src/supabase_manager.py, `_get_mock_results`) -/

/-- The `supabase_note` row of `_get_mock_results` (src/supabase_manager.py
lines 251-255); in mock mode `SUPABASE_URL` is unset, so the env lookup
yields the `"not-configured"` default. -/
def supabase_note (sql : String) : Row :=
  [("note", .s "Using mock data. Create 'customers' and 'orders' tables in your Supabase dashboard to use real data"),
   ("supabase_url", .s "not-configured"),
   ("sql_generated", .s sql)]

/-- The fixed two-row mock customer dataset (src/supabase_manager.py lines 258-278). -/
def mockCustomerRows : List Row :=
  [[("id", .s "cust_001"), ("name", .s "John Smith"), ("email", .s "john@techcorp.com"),
    ("company", .s "TechCorp Inc"), ("city", .s "San Francisco"), ("state", .s "CA"),
    ("revenue", .num 15000.00), ("created_at", .s "2023-01-15")],
   [("id", .s "cust_002"), ("name", .s "Sarah Johnson"), ("email", .s "sarah@innovate.io"),
    ("company", .s "Innovate Solutions"), ("city", .s "Austin"), ("state", .s "TX"),
    ("revenue", .num 8500.00), ("created_at", .s "2023-02-20")]]

/-- The two-row mock top-customers dataset (src/supabase_manager.py lines 283-286). -/
def mockTopCustomerRows : List Row :=
  [[("name", .s "Enterprise Corp"), ("company", .s "Enterprise Corp"), ("revenue", .num 25000.00)],
   [("name", .s "Big Business LLC"), ("company", .s "Big Business LLC"), ("revenue", .num 18000.00)]]

/-- The two-row mock orders dataset (src/supabase_manager.py lines 288-305). -/
def mockOrderRows : List Row :=
  [[("id", .s "ord_001"), ("customer_id", .s "cust_001"), ("product_name", .s "Premium Plan"),
    ("amount", .num 299.99), ("status", .s "completed"), ("order_date", .s "2024-01-15")],
   [("id", .s "ord_002"), ("customer_id", .s "cust_002"), ("product_name", .s "Basic Plan"),
    ("amount", .num 99.99), ("status", .s "pending"), ("order_date", .s "2024-01-20")]]

/-- The generic mock row of `_get_mock_results`'s final branch
(src/supabase_manager.py lines 307-312), with the query echo truncated to
100 characters plus an ellipsis when longer. -/
def mockGenericRow (sql : String) : Row :=
  [("message", .s "Mock data from SupabaseManager"),
   ("query", .s (if 100 < sql.data.length then String.mk (sql.data.take 100) ++ "..." else sql)),
   ("note", .s "Configure SUPABASE_URL and SUPABASE_SERVICE_ROLE_KEY in .env.local for real data")]

/-- `_get_mock_results` from src/supabase_manager.py lines 243-314: canned
rows selected by substring tests on the lower-cased SQL, each dataset
sliced with Python `[:max_results]` before the mock-mode note is appended
(the count branch is returned unsliced). -/
def _get_mock_results (sql : String) (max_results : Int) : List Row :=
  let sql_lower := pyLower sql
  if pyIn "customers" sql_lower && pyIn "revenue" sql_lower && pyIn "5000" sql_lower then
    pyTake mockCustomerRows max_results ++ [supabase_note sql]
  else if pyIn "customers" sql_lower && pyIn "count" sql_lower then
    [[("count", .num 150)], supabase_note sql]
  else if pyIn "customers" sql_lower && (pyIn "top" sql_lower || pyIn "order by" sql_lower) then
    pyTake mockTopCustomerRows max_results ++ [supabase_note sql]
  else if pyIn "orders" sql_lower then
    pyTake mockOrderRows max_results ++ [supabase_note sql]
  else
    pyTake [mockGenericRow sql, supabase_note sql] max_results

/-! ## Live-mode Query Executor (src/supabase_manager.py)

In live mode the Supabase client is a black box reached over the network.
Its observable behaviour for one request is described by `LiveDB`: the
rows the `customers` and `orders` tables hold, the first day of the
current month (used by the orders date filter), whether an `.execute()`
call raises (and with which message), and what the `exec_sql` RPC yields
(`none` models both "raises" and "unavailable", which the source treats
alike). -/

/-- The observable behaviour of the live Supabase client for one request. -/
structure LiveDB : Type where
  customers : List Row
  orders : List Row
  monthStart : String
  dbFail : Option String
  rpcData : Option (List Row)

/-- The string value of a row's column, when present. -/
def rowStr (r : Row) (k : String) : Option String :=
  match r.lookup k with
  | some (.s v) => some v
  | _ => none

/-- The numeric value of a row's column, when present. -/
def rowNum (r : Row) (k : String) : Option ℚ :=
  match r.lookup k with
  | some (.num v) => some v
  | _ => none

/-- Whitespace as Python's regex `\s` matches it (ASCII classes). -/
def reSpace (c : Char) : Bool := pySpace c

/-- Value of a decimal digit run, as Python `int()` reads the regex group. -/
def digitsToNat (ds : List Char) : Nat :=
  ds.foldl (fun a c => a * 10 + (c.toNat - 48)) 0

/-- One anchored attempt of `re.search(r'revenue\s*>\s*(\d+)', s)` at the
head of `cs`: the literal `revenue`, then `\s*`, `>`, `\s*`, and a maximal
nonempty digit run, whose value is the captured group. Greedy matching
with no backtracking is exact here because `\s` never matches `>` and a
digit never matches past the run. -/
def matchRevenueGtAt (cs : List Char) : Option Nat :=
  if cs.take 7 = "revenue".data then
    match (cs.drop 7).dropWhile reSpace with
    | '>' :: rest =>
      let ds := (rest.dropWhile reSpace).takeWhile Char.isDigit
      if ds = [] then none else some (digitsToNat ds)
    | _ => none
  else none

/-- `re.search` for the revenue pattern: the leftmost position where the
anchored attempt succeeds. -/
def searchRevenueGt : List Char → Option Nat
  | [] => none
  | c :: cs =>
    match matchRevenueGtAt (c :: cs) with
    | some n => some n
    | none => searchRevenueGt cs

/-- Insertion step for ordering rows by their `revenue` column. -/
def insertByRevenue (le : ℚ → ℚ → Bool) (x : Row) : List Row → List Row
  | [] => [x]
  | y :: ys =>
    if le ((rowNum x "revenue").getD 0) ((rowNum y "revenue").getD 0) then
      x :: y :: ys
    else y :: insertByRevenue le x ys

/-- The server-side `ORDER BY revenue` of the Supabase client, modelled as a
stable insertion sort on the `revenue` column. -/
def sortByRevenue (le : ℚ → ℚ → Bool) (l : List Row) : List Row :=
  l.foldr (insertByRevenue le) []

/-- The live `.limit(max_results)` of the Supabase client: at most that many
rows (a negative argument is modelled as zero rows). -/
def dbLimit (l : List Row) (max_results : Int) : List Row := l.take max_results.toNat

/-- `_is_customers_query` from src/supabase_manager.py lines 147-150. -/
def _is_customers_query (sql : String) : Bool :=
  let sql_lower := pyLower sql
  pyIn "customers" sql_lower && (pyIn "select" sql_lower || pyIn "count" sql_lower)

/-- `_is_orders_query` from src/supabase_manager.py lines 152-155. -/
def _is_orders_query (sql : String) : Bool :=
  let sql_lower := pyLower sql
  pyIn "orders" sql_lower && (pyIn "select" sql_lower || pyIn "count" sql_lower)

/-- The message CPython raises in `_execute_customers_query`'s `state` branch:
`import re` stands inside the `revenue >` branch only (src/supabase_manager.py
line 173), so on the `state` path the function-local name `re` is referenced
before assignment at line 179 and the lookup raises. -/
def reUnboundMsg : String := "local variable 're' referenced before assignment"

/-- The empty-table fallback row of `_execute_customers_query`
(src/supabase_manager.py line 198). -/
def noCustomersRow : Row :=
  [("message", .s "No customers found"), ("note", .s "The customers table exists but is empty")]

/-- The empty-table fallback row of `_execute_orders_query`
(src/supabase_manager.py line 228). -/
def noOrdersRow : Row :=
  [("message", .s "No orders found"), ("note", .s "The orders table exists but is empty")]

/-- `_execute_customers_query` from src/supabase_manager.py lines 157-202:
count queries return a single count row; otherwise the recognized `WHERE`
condition, the recognized `ORDER BY revenue [DESC]`, and the row limit are
applied in that order. An exception (the client's, or the unbound `re` of
the `state` branch) propagates as `.error` to `execute_sql_query`. -/
def _execute_customers_query (db : LiveDB) (sql : String) (max_results : Int) :
    Except String (List Row) :=
  let sql_lower := pyLower sql
  if pyIn "count" sql_lower then
    match db.dbFail with
    | some e => .error e
    | none => .ok [[("count", .num (db.customers.length : ℚ))]]
  else
    let filterStep : Except String (List Row → List Row) :=
      if pyIn "where" sql_lower then
        if pyIn "revenue >" sql_lower then
          match searchRevenueGt (pyLower sql).data with
          | some threshold =>
            .ok (fun rows => rows.filter (fun r => decide ((threshold : ℚ) < (rowNum r "revenue").getD 0)))
          | none => .ok id
        else if pyIn "state" sql_lower then
          .error reUnboundMsg
        else .ok id
      else .ok id
    match filterStep with
    | .error e => .error e
    | .ok filt =>
      let orderStep : List Row → List Row :=
        if pyIn "order by" sql_lower && pyIn "revenue" sql_lower then
          if pyIn "desc" sql_lower then sortByRevenue (fun a b => decide (b ≤ a))
          else sortByRevenue (fun a b => decide (a ≤ b))
        else id
      match db.dbFail with
      | some e => .error e
      | none =>
        let data := dbLimit (orderStep (filt db.customers)) max_results
        if data = [] then .ok [noCustomersRow] else .ok data

/-- `_execute_orders_query` from src/supabase_manager.py lines 204-232:
count queries return a single count row; a "this month"/"current month"
phrase adds an `order_date ≥ first-of-month` filter; then the row limit. -/
def _execute_orders_query (db : LiveDB) (sql : String) (max_results : Int) :
    Except String (List Row) :=
  let sql_lower := pyLower sql
  if pyIn "count" sql_lower then
    match db.dbFail with
    | some e => .error e
    | none => .ok [[("count", .num (db.orders.length : ℚ))]]
  else
    let base :=
      if pyIn "this month" sql_lower || (pyIn "month" sql_lower && pyIn "current" sql_lower) then
        db.orders.filter (fun r => decide (db.monthStart ≤ (rowStr r "order_date").getD ""))
      else db.orders
    match db.dbFail with
    | some e => .error e
    | none =>
      let data := dbLimit base max_results
      if data = [] then .ok [noOrdersRow] else .ok data

/-- `_execute_simple_query` from src/supabase_manager.py lines 234-241:
the canned fallback row for unclassified SQL. -/
def _execute_simple_query (sql : String) : List Row :=
  [("message", .s "Query executed successfully"),
   ("sql", .s sql),
   ("note", .s "Complex queries require manual parsing - showing generic result"),
   ("suggestion", .s "Try simpler queries like 'show customers' or 'count orders'")] |> fun r => [r]

/-- The diagnostic row of `execute_sql_query`'s non-quota exception branch
(src/supabase_manager.py lines 135-139). -/
def dbQueryFailedRow (e sql_clean : String) : Row :=
  [("error", .s ("Database query failed: " ++ e)),
   ("sql", .s sql_clean),
   ("note", .s "Check your Supabase tables and permissions")]

/-- The generic diagnostic row of `execute_sql_query`'s quota/429 exception
branch (src/supabase_manager.py lines 141-145). -/
def aiUnavailableRow : Row :=
  [("error", .s "AI service temporarily unavailable"),
   ("message", .s "Please try again in a moment"),
   ("fallback_options", .arr ["Try: 'show customers'", "Try: 'count orders'"])]

/-- The keyword routing inside `execute_sql_query`'s `try` block
(src/supabase_manager.py lines 112-129): customers table, else orders
table, else the `exec_sql` RPC when it yields data, else the canned simple
result. The RPC's own exceptions are swallowed by the inner bare `except`,
so only the table paths can raise. -/
def routeLiveQuery (db : LiveDB) (sql_clean : String) (max_results : Int) :
    Except String (List Row) :=
  if _is_customers_query sql_clean then _execute_customers_query db sql_clean max_results
  else if _is_orders_query sql_clean then _execute_orders_query db sql_clean max_results
  else
    match db.rpcData with
    | some data => if data = [] then .ok (_execute_simple_query sql_clean)
                   else .ok (pyTake data max_results)
    | none => .ok (_execute_simple_query sql_clean)

/-- `execute_sql_query` from src/supabase_manager.py lines 98-145: mock rows
when no client is configured; otherwise strip the SQL, route it, and turn
any exception into a single diagnostic row - the raw-error one unless the
message matches the quota/429 pattern, the generic one when it does. The
function always returns rows, never raises. -/
def execute_sql_query (conn : Option LiveDB) (sql : String) (max_results : Int) : List Row :=
  match conn with
  | none => _get_mock_results sql max_results
  | some db =>
    let sql_clean := pyRstripSemi (pyStrip sql)
    match routeLiveQuery db sql_clean max_results with
    | .ok rows => rows
    | .error e =>
      if !pyIn "quota" (pyLower e) && !pyIn "429" e then [dbQueryFailedRow e sql_clean]
      else [aiUnavailableRow]

/-! ## Query Resolution Pipeline (src/api/index.py, `process_text_query`) -/

/-- The placeholder SQL substituted when neither the model nor the fallback
matcher produced usable SQL (src/api/index.py line 197). -/
def placeholder_sql : String :=
  "SELECT 'Query pattern not recognized' as message, 'Try: show customers, count customers, show orders' as suggestion"

/-- The suggestions row of the quota-failure envelope
(src/api/index.py lines 166-175). -/
def quotaSuggestionsRow : Row :=
  [("error", .s "AI service temporarily unavailable"),
   ("message", .s "Please try again in a moment, or use simpler queries"),
   ("suggestions", .arr ["Try: 'show customers'", "Try: 'count customers'",
                         "Try: 'list all customers'", "Try: 'show orders'"])]

/-- The validity gate of src/api/index.py lines 189-197: an empty string, or
one containing `ERROR:` or `Failed to generate`, is replaced by the fallback
matcher's SQL or, failing that, by the placeholder. -/
def ensure_valid_sql (generated_sql query : String) : String :=
  if generated_sql = "" || pyIn "ERROR:" generated_sql || pyIn "Failed to generate" generated_sql then
    match _get_fallback_sql query with
    | some fallback_sql => fallback_sql
    | none => placeholder_sql
  else generated_sql

/-- How the translation phase of `process_text_query` ends: with SQL handed
to the executor, with the early quota envelope, or re-raising the model's
exception to the outer handler. -/
inductive SqlResolution : Type
  | sql (s : String)
  | quotaEnvelope
  | reraise (e : String)
deriving DecidableEq

/-- Lines 144-197 of src/api/index.py: the `generate_sql` call (its outcome,
reply or exception, passed in as `gem`), the quota/other exception handling
with the fallback matcher, and the validity gate. The `.sql` payload is
exactly the string later passed to `execute_sql_query`. -/
def resolve_sql (gem : Except String String) (query : String) : SqlResolution :=
  match gem with
  | .ok generated_sql => .sql (ensure_valid_sql generated_sql query)
  | .error e =>
    if pyIn "quota" (pyLower e) || pyIn "429" e then
      match _get_fallback_sql query with
      | some fallback_sql => .sql (ensure_valid_sql fallback_sql query)
      | none => .quotaEnvelope
    else
      match _get_fallback_sql query with
      | some fallback_sql => .sql (ensure_valid_sql fallback_sql query)
      | none => .reraise e

/-- The response envelope `SimpleQueryResponse` of src/api/index.py lines 66-75. -/
structure SimpleQueryResponse : Type where
  success : Bool
  query : String
  generated_sql : String
  results : List Row
  explanation : Option String
  execution_time : ℚ
  row_count : Nat
  error : Option String
deriving DecidableEq

/-- `process_text_query` from src/api/index.py lines 138-236. `gem` is the
outcome of the `gemini_sql.generate_sql` call (reply or raised exception),
`expl` the outcome of the `gemini_sql.explain_sql` call, `execF` the
behaviour of `supabase_manager.execute_sql_query` (an `.error` models the
await raising, caught by the outer handler), and `elapsed` the wall-clock
seconds the surrounding timestamps measure. -/
def process_text_query (gem : Except String String) (expl : Except String String)
    (execF : String → Int → Except String (List Row))
    (query : String) (max_results : Int) (explain : Bool) (elapsed : ℚ) :
    SimpleQueryResponse :=
  match resolve_sql gem query with
  | .quotaEnvelope =>
    { success := false, query := query, generated_sql := "",
      results := [quotaSuggestionsRow], explanation := none,
      execution_time := 0, row_count := 1,
      error := some "AI quota exceeded - try simpler queries or wait a moment" }
  | .reraise e =>
    { success := false, query := query, generated_sql := "", results := [],
      explanation := none, execution_time := elapsed, row_count := 0,
      error := some e }
  | .sql generated_sql =>
    match execF generated_sql max_results with
    | .error e =>
      { success := false, query := query, generated_sql := "", results := [],
        explanation := none, execution_time := elapsed, row_count := 0,
        error := some e }
    | .ok results =>
      { success := true, query := query, generated_sql := generated_sql,
        results := results,
        explanation :=
          if explain then
            some (match expl with
                  | .ok explanation => explanation
                  | .error _ => "AI explanation temporarily unavailable")
          else none,
        execution_time := elapsed, row_count := results.length, error := none }

/-- `supabase_manager.execute_sql_query` as the pipeline's executor: it
catches every exception itself, so it never raises into the pipeline. -/
def supabaseExecutor (conn : Option LiveDB) : String → Int → Except String (List Row) :=
  fun sql max_results => .ok (execute_sql_query conn sql max_results)

/-! ## Helper lemmas -/

set_option maxRecDepth 40000

/-- Every SQL string the Fallback Rule Matcher can emit is non-empty and free
of the `ERROR:` and `Failed to generate` markers the validity gate tests. -/
theorem fallback_sql_wf (q f : String) (h : _get_fallback_sql q = some f) :
    pyIn "ERROR:" f = false ∧ pyIn "Failed to generate" f = false ∧ f ≠ "" := by
  simp only [_get_fallback_sql] at h
  set ql := pyStrip (pyLower q)
  cases h1 : (pyIn "show" ql && pyIn "customer" ql) <;> simp only [h1, Option.some.injEq, Bool.false_eq_true, if_true, if_false] at h
  case true => subst h; exact ⟨by decide, by decide, by decide⟩
  cases h2 : (pyIn "count" ql && pyIn "customer" ql) <;> simp only [h2, Option.some.injEq, Bool.false_eq_true, if_true, if_false] at h
  case true => subst h; exact ⟨by decide, by decide, by decide⟩
  cases h3 : (pyIn "list" ql && pyIn "customer" ql) <;> simp only [h3, Option.some.injEq, Bool.false_eq_true, if_true, if_false] at h
  case true => subst h; exact ⟨by decide, by decide, by decide⟩
  cases h4 : (pyIn "all customer" ql) <;> simp only [h4, Option.some.injEq, Bool.false_eq_true, if_true, if_false] at h
  case true => subst h; exact ⟨by decide, by decide, by decide⟩
  cases h5 : (pyIn "customer" ql && (pyIn "high" ql || pyIn "revenue" ql)) <;> simp only [h5, Option.some.injEq, Bool.false_eq_true, if_true, if_false] at h
  case true => subst h; exact ⟨by decide, by decide, by decide⟩
  cases h6 : (pyIn "customer" ql) <;> simp only [h6, Option.some.injEq, Bool.false_eq_true, if_true, if_false] at h
  case true => subst h; exact ⟨by decide, by decide, by decide⟩
  cases h7 : (pyIn "show" ql && pyIn "order" ql) <;> simp only [h7, Option.some.injEq, Bool.false_eq_true, if_true, if_false] at h
  case true => subst h; exact ⟨by decide, by decide, by decide⟩
  cases h8 : (pyIn "count" ql && pyIn "order" ql) <;> simp only [h8, Option.some.injEq, Bool.false_eq_true, if_true, if_false] at h
  case true => subst h; exact ⟨by decide, by decide, by decide⟩
  cases h9 : (pyIn "list" ql && pyIn "order" ql) <;> simp only [h9, Option.some.injEq, Bool.false_eq_true, if_true, if_false] at h
  case true => subst h; exact ⟨by decide, by decide, by decide⟩
  cases h10 : (pyIn "all order" ql) <;> simp only [h10, Option.some.injEq, Bool.false_eq_true, if_true, if_false] at h
  case true => subst h; exact ⟨by decide, by decide, by decide⟩
  cases h11 : (pyIn "order" ql) <;> simp only [h11, Option.some.injEq, Bool.false_eq_true, if_true, if_false] at h
  case true => subst h; exact ⟨by decide, by decide, by decide⟩
  cases h12 : (pyIn "show" ql) <;> simp only [h12, Option.some.injEq, Bool.false_eq_true, if_true, if_false] at h
  case true => subst h; exact ⟨by decide, by decide, by decide⟩
  cases h13 : (pyIn "count" ql) <;> simp only [h13, Option.some.injEq, Bool.false_eq_true, if_true, if_false] at h
  case true => subst h; exact ⟨by decide, by decide, by decide⟩
  cases h14 : (pyIn "list" ql) <;> simp only [h14, Option.some.injEq, Bool.false_eq_true, if_true, if_false] at h
  case true => subst h; exact ⟨by decide, by decide, by decide⟩
  exact absurd h (by simp)

/-- Slicing a list with Python `[:0]` keeps nothing. -/
theorem pyTake_zero {α : Type} (l : List α) : pyTake l 0 = [] := by
  simp [pyTake]

/-- The validity gate never lets a string through that starts with `ERROR:`:
a bad translator output is replaced by matcher SQL or the placeholder, and a
good one contains no `ERROR:` at all. -/
theorem ensure_valid_sql_no_error_head (g q : String) :
    pyStartsWith "ERROR:" (ensure_valid_sql g q) = false := by
  unfold ensure_valid_sql
  split
  · cases hf : _get_fallback_sql q with
    | some f => simp only [hf]; exact pyIn_false_pyStartsWith_false _ _ (fallback_sql_wf q f hf).1
    | none => simp only [hf]; decide
  · next hbad =>
    simp only [Bool.or_eq_true, not_or] at hbad
    exact pyIn_false_pyStartsWith_false _ _ (by simpa using hbad.1.2)

/-! ## Claims -/

/-- Claim C1, counterexample: the claim "every question containing both
`customer` and `count` maps to exactly `SELECT COUNT(*) AS count FROM
customers`" fails twice over on the code: the question `"show customer
count"` contains both words yet hits the earlier show-rule, and even the
question `"count customers"` yields lowercase `as count`, not `AS count`. -/
theorem claim1_count_rule_counterexample :
    (pyIn "customer" (pyStrip (pyLower "show customer count")) = true ∧
     pyIn "count" (pyStrip (pyLower "show customer count")) = true ∧
     _get_fallback_sql "show customer count" = some "SELECT * FROM customers LIMIT 10" ∧
     _get_fallback_sql "show customer count" ≠ some "SELECT COUNT(*) AS count FROM customers") ∧
    (pyIn "customer" (pyStrip (pyLower "count customers")) = true ∧
     pyIn "count" (pyStrip (pyLower "count customers")) = true ∧
     _get_fallback_sql "count customers" = some "SELECT COUNT(*) as count FROM customers" ∧
     _get_fallback_sql "count customers" ≠ some "SELECT COUNT(*) AS count FROM customers") := by
  decide

/-- Claim C1, as amended: every question whose lower-cased, stripped text
contains `customer` and `count` but not `show` resolves through the
matcher's count rule to `SELECT COUNT(*) as count FROM customers`
(lowercase `as`, as the source writes it). -/
theorem claim1_count_rule (q : String)
    (hcust : pyIn "customer" (pyStrip (pyLower q)) = true)
    (hcount : pyIn "count" (pyStrip (pyLower q)) = true)
    (hshow : pyIn "show" (pyStrip (pyLower q)) = false) :
    _get_fallback_sql q = some "SELECT COUNT(*) as count FROM customers" := by
  simp [_get_fallback_sql, hcust, hcount, hshow]

/-- Claim C1, witness: the amended count rule evaluated on a concrete
question that contains `customer` and `count` but not `show`. -/
theorem claim1_count_rule_witness :
    pyIn "customer" (pyStrip (pyLower "how many customers, count them")) = true ∧
    _get_fallback_sql "how many customers, count them" = some "SELECT COUNT(*) as count FROM customers" :=
  ⟨by decide, claim1_count_rule "how many customers, count them" (by decide) (by decide) (by decide)⟩

/-- Claim C2: whenever the translation phase hands a SQL string to the
executor, that string never starts with `ERROR:`; and whenever the
translator's reply was empty, contained `ERROR:` or contained `Failed to
generate`, the handed string is the fallback matcher's SQL or, if the
matcher yields none, the literal placeholder. -/
theorem claim2_no_error_sql_reaches_executor (gem : Except String String) (query s : String)
    (h : resolve_sql gem query = .sql s) :
    pyStartsWith "ERROR:" s = false ∧
    (∀ g, gem = .ok g →
      (g = "" ∨ pyIn "ERROR:" g = true ∨ pyIn "Failed to generate" g = true) →
      s = match _get_fallback_sql query with
          | some fallback_sql => fallback_sql
          | none => placeholder_sql) := by
  unfold resolve_sql at h
  cases gem with
  | ok g =>
    simp only [SqlResolution.sql.injEq] at h
    subst h
    refine ⟨ensure_valid_sql_no_error_head g query, ?_⟩
    intro g' hg hbad
    injection hg with hgg
    subst hgg
    have hc : (decide (g = "") || pyIn "ERROR:" g || pyIn "Failed to generate" g) = true := by
      rcases hbad with hb | hb | hb <;> simp [hb]
    simp only [ensure_valid_sql, hc, if_true]
  | error e =>
    cases hq : (pyIn "quota" (pyLower e) || pyIn "429" e) <;>
        simp only [hq, Bool.false_eq_true, if_true, if_false] at h <;>
        cases hf : _get_fallback_sql query <;>
        simp only [hf, SqlResolution.sql.injEq, reduceCtorEq] at h
    case false.some f =>
      subst h
      exact ⟨ensure_valid_sql_no_error_head f query, fun g hg => absurd hg (by simp)⟩
    case true.some f =>
      subst h
      exact ⟨ensure_valid_sql_no_error_head f query, fun g hg => absurd hg (by simp)⟩

/-- Claim C2, witness: a translator reply that is the model's inability
sentinel, on a question no fallback rule matches, is replaced by the
placeholder before execution - and that placeholder does not start with
`ERROR:`. -/
theorem claim2_no_error_sql_reaches_executor_witness :
    pyStartsWith "ERROR:" placeholder_sql = false ∧
    placeholder_sql = match _get_fallback_sql "what is the weather" with
                      | some fallback_sql => fallback_sql
                      | none => placeholder_sql := by
  have h := claim2_no_error_sql_reaches_executor
    (.ok "ERROR: Cannot generate SQL for this question") "what is the weather"
    placeholder_sql (by decide)
  exact ⟨h.1, h.2 "ERROR: Cannot generate SQL for this question" rfl (by right; left; decide)⟩

/-- Claim C3: in every envelope the pipeline returns - the quota-failure
envelope, the exception envelope and the success envelope alike - the
`row_count` field equals the length of the `results` list, for every
translator outcome, explainer outcome, executor behaviour and request. -/
theorem claim3_row_count_matches_results (gem expl : Except String String)
    (execF : String → Int → Except String (List Row))
    (query : String) (max_results : Int) (explain : Bool) (elapsed : ℚ) :
    (process_text_query gem expl execF query max_results explain elapsed).row_count =
      (process_text_query gem expl execF query max_results explain elapsed).results.length := by
  unfold process_text_query
  cases hr : resolve_sql gem query <;> simp only [hr]
  case sql s => cases he : execF s max_results <;> simp [he]
  all_goals rfl

/-- Claim C6: every question whose lower-cased, stripped text contains
`show` and `customer` hits the matcher's first rule and yields exactly
`SELECT * FROM customers LIMIT 10`, whatever else the question contains. -/
theorem claim6_show_customer_rule (q : String)
    (hshow : pyIn "show" (pyStrip (pyLower q)) = true)
    (hcust : pyIn "customer" (pyStrip (pyLower q)) = true) :
    _get_fallback_sql q = some "SELECT * FROM customers LIMIT 10" := by
  simp [_get_fallback_sql, hshow, hcust]

/-- Claim C6, witness: the question `"show all customers"` - which also
matches the later bare `all customer` and bare `customer` rules - resolves
via rule 1 to the `LIMIT 10` statement, not to rule 3's unlimited one. -/
theorem claim6_show_customer_rule_witness :
    _get_fallback_sql "show all customers" = some "SELECT * FROM customers LIMIT 10" ∧
    ("SELECT * FROM customers LIMIT 10" : String) ≠ "SELECT * FROM customers" :=
  ⟨claim6_show_customer_rule "show all customers" (by decide) (by decide), by decide⟩

/-- Claim C7: when the model call raises with message `e`, `generate_sql`
returns the sentinel `ERROR: Failed to generate SQL - e` instead of
raising, and that returned string starts with `ERROR:`. -/
theorem claim7_generate_sql_error_sentinel (e : String) :
    generate_sql (.error e) = "ERROR: Failed to generate SQL - " ++ e ∧
    pyStartsWith "ERROR:" (generate_sql (.error e)) = true := by
  refine ⟨rfl, ?_⟩
  show pyStartsWith "ERROR:" ("ERROR: Failed to generate SQL - " ++ e) = true
  simp only [pyStartsWith, decide_eq_true_eq]
  have h1 : ("ERROR: Failed to generate SQL - " ++ e).data
      = "ERROR:".data ++ (" Failed to generate SQL - ".data ++ e.data) := by
    show "ERROR: Failed to generate SQL - ".data ++ e.data = _
    rw [← List.append_assoc]
    congr 1
  exact h1 ▸ ⟨" Failed to generate SQL - ".data ++ e.data, rfl⟩

/-- Claim C4 (code bug), evaluated at the failing input: in live mode, a
non-count customers query carrying `WHERE state = 'CA'` and no `revenue >`
condition does not return state-filtered rows - `import re` stands only
inside the `revenue >` branch, so the `state` branch raises the unbound
local `re` and the executor surfaces a `Database query failed` diagnostic
row instead. -/
theorem claim4_state_filter_unbound_re :
    _execute_customers_query ⟨[[("state", JValue.s "CA")]], [], "2025-10-01", none, none⟩
        "SELECT * FROM customers WHERE state = 'CA'" 10 = .error reUnboundMsg ∧
    execute_sql_query (some ⟨[[("state", JValue.s "CA")]], [], "2025-10-01", none, none⟩)
        "SELECT * FROM customers WHERE state = 'CA'" 10
      = [dbQueryFailedRow reUnboundMsg "SELECT * FROM customers WHERE state = 'CA'"] := by
  decide

/-- Claim C5, counterexample: for `{query: "show customers"}` in mock mode,
resolved through the fallback matcher, the envelope carries 2 rows, not the
claimed 3 - the plain `SELECT * FROM customers LIMIT 10` contains neither
`revenue`/`5000` nor `count` nor `top`/`order by`, so `_get_mock_results`
falls to its generic branch instead of the two-row customer dataset. -/
theorem claim5_mock_show_customers_counterexample :
    (process_text_query (.ok "") (.error "x") (supabaseExecutor none) "show customers" 10 true 0).generated_sql
      = "SELECT * FROM customers LIMIT 10" ∧
    (process_text_query (.ok "") (.error "x") (supabaseExecutor none) "show customers" 10 true 0).row_count = 2 ∧
    (process_text_query (.ok "") (.error "x") (supabaseExecutor none) "show customers" 10 true 0).row_count ≠ 3 ∧
    (process_text_query (.ok "") (.error "x") (supabaseExecutor none) "show customers" 10 true 0).results
      ≠ mockCustomerRows ++ [supabase_note "SELECT * FROM customers LIMIT 10"] := by
  decide

/-- Claim C5, as amended: for `{query: "show customers"}` in mock mode with
the SQL resolved by the fallback matcher, the response has `success = true`,
a `generated_sql` containing `customers`, `results` equal to the generic
mock-data message row followed by the mock-mode note row, and
`row_count = 2`. -/
theorem claim5_mock_show_customers :
    (process_text_query (.ok "") (.error "x") (supabaseExecutor none) "show customers" 10 true 0).success = true ∧
    pyIn "customers"
      (process_text_query (.ok "") (.error "x") (supabaseExecutor none) "show customers" 10 true 0).generated_sql = true ∧
    (process_text_query (.ok "") (.error "x") (supabaseExecutor none) "show customers" 10 true 0).results
      = [mockGenericRow "SELECT * FROM customers LIMIT 10", supabase_note "SELECT * FROM customers LIMIT 10"] ∧
    (process_text_query (.ok "") (.error "x") (supabaseExecutor none) "show customers" 10 true 0).row_count = 2 := by
  decide

/-- Claim C8: whenever the live routing raises with message `e`, the
executor catches it and returns rows - the raw `{error, sql, note}`
diagnostic when `e` matches neither `quota` (case-insensitively) nor `429`,
and the generic `AI service temporarily unavailable` row (which carries no
part of `e`) when it does. -/
theorem claim8_live_exception_handling (db : LiveDB) (sql : String) (max_results : Int) (e : String)
    (h : routeLiveQuery db (pyRstripSemi (pyStrip sql)) max_results = .error e) :
    (pyIn "quota" (pyLower e) = false → pyIn "429" e = false →
      execute_sql_query (some db) sql max_results
        = [dbQueryFailedRow e (pyRstripSemi (pyStrip sql))]) ∧
    (pyIn "quota" (pyLower e) = true ∨ pyIn "429" e = true →
      execute_sql_query (some db) sql max_results = [aiUnavailableRow]) := by
  constructor
  · intro hq h429
    simp only [execute_sql_query, h, hq, h429]
    rfl
  · intro hor
    simp only [execute_sql_query, h]
    rcases hor with hq | h429
    · simp [hq]
    · simp [h429]

/-- Claim C8, witness: a client failure `connection refused` on a live
customers count query surfaces as the raw diagnostic row. -/
theorem claim8_live_exception_handling_witness :
    routeLiveQuery ⟨[], [], "2025-10-01", some "connection refused", none⟩
        (pyRstripSemi (pyStrip "SELECT COUNT(*) as count FROM customers")) 10
      = .error "connection refused" ∧
    execute_sql_query (some ⟨[], [], "2025-10-01", some "connection refused", none⟩)
        "SELECT COUNT(*) as count FROM customers" 10
      = [dbQueryFailedRow "connection refused"
          (pyRstripSemi (pyStrip "SELECT COUNT(*) as count FROM customers"))] := by
  refine ⟨by decide, ?_⟩
  exact (claim8_live_exception_handling ⟨[], [], "2025-10-01", some "connection refused", none⟩
      "SELECT COUNT(*) as count FROM customers" 10 "connection refused" (by decide)).1
    (by decide) (by decide)

/-- Claim C9, counterexample: a request with `max_results = -1` in mock mode
is neither rejected (the envelope succeeds with no error) nor clamped (its
results differ from the `max_results = 0` results and from the full
results): Python's negative slice silently drops the trailing note row. -/
theorem claim9_negative_max_results_counterexample :
    (process_text_query (.ok "") (.error "x") (supabaseExecutor none) "show customers" (-1) true 0).success = true ∧
    (process_text_query (.ok "") (.error "x") (supabaseExecutor none) "show customers" (-1) true 0).error = none ∧
    (process_text_query (.ok "") (.error "x") (supabaseExecutor none) "show customers" (-1) true 0).results
      = [mockGenericRow "SELECT * FROM customers LIMIT 10"] ∧
    (process_text_query (.ok "") (.error "x") (supabaseExecutor none) "show customers" 0 true 0).results = [] ∧
    (process_text_query (.ok "") (.error "x") (supabaseExecutor none) "show customers" 10 true 0).results
      = [mockGenericRow "SELECT * FROM customers LIMIT 10", supabase_note "SELECT * FROM customers LIMIT 10"] := by
  decide

/-- Claim C9, as amended: `max_results = 0` never raises in mock execution
and yields the branch's minimal result - empty for the generic branch, the
note row alone for the dataset branches, and the unsliced count rows for
the count branch; a negative `max_results` is accepted unvalidated, and
Python slice semantics drop that many rows from the end of the branch
list, as the `-1` evaluation shows. -/
theorem claim9_max_results_boundary (sql : String) :
    (_get_mock_results sql 0 = [] ∨
     _get_mock_results sql 0 = [supabase_note sql] ∨
     _get_mock_results sql 0 = [[("count", JValue.num 150)], supabase_note sql]) ∧
    _get_mock_results "SELECT * FROM customers LIMIT 10" (-1)
      = [mockGenericRow "SELECT * FROM customers LIMIT 10"] := by
  constructor
  · simp only [_get_mock_results]
    set sl := pyLower sql
    cases h1 : (pyIn "customers" sl && pyIn "revenue" sl && pyIn "5000" sl) <;>
      simp only [h1, Bool.false_eq_true, if_true, if_false]
    case true => right; left; simp [pyTake_zero]
    cases h2 : (pyIn "customers" sl && pyIn "count" sl) <;>
      simp only [h2, Bool.false_eq_true, if_true, if_false]
    case true => right; right; trivial
    cases h3 : (pyIn "customers" sl && (pyIn "top" sl || pyIn "order by" sl)) <;>
      simp only [h3, Bool.false_eq_true, if_true, if_false]
    case true => right; left; simp [pyTake_zero]
    cases h4 : (pyIn "orders" sl) <;>
      simp only [h4, Bool.false_eq_true, if_true, if_false]
    case true => right; left; simp [pyTake_zero]
    left; simp [pyTake_zero]
  · decide

/-- Claim C10: the placeholder SQL substituted when neither the model nor
the matcher produced usable SQL contains `customers`, `select` and `count`,
so the executor classifies it as a customers count query: mock mode returns
the fixed count row plus the mock note, live mode the count of the
customers table - never a row echoing the `Query pattern not recognized`
message; and a bad translator reply with no matching fallback rule indeed
resolves to this placeholder. -/
theorem claim10_placeholder_counts (db : LiveDB) (max_results : Int) (hdb : db.dbFail = none) :
    (pyIn "customers" (pyLower placeholder_sql) = true ∧
     pyIn "select" (pyLower placeholder_sql) = true ∧
     pyIn "count" (pyLower placeholder_sql) = true) ∧
    _get_mock_results placeholder_sql max_results
      = [[("count", JValue.num 150)], supabase_note placeholder_sql] ∧
    execute_sql_query (some db) placeholder_sql max_results
      = [[("count", JValue.num (db.customers.length : ℚ))]] ∧
    (∀ g query, (g = "" ∨ pyIn "ERROR:" g = true ∨ pyIn "Failed to generate" g = true) →
      _get_fallback_sql query = none →
      resolve_sql (.ok g) query = .sql placeholder_sql) := by
  refine ⟨by decide, ?_, ?_, ?_⟩
  · simp only [_get_mock_results]
    rw [if_neg (by decide), if_pos (by decide)]
  · have hclean : pyRstripSemi (pyStrip placeholder_sql) = placeholder_sql := by decide
    simp only [execute_sql_query, hclean]
    have hroute : routeLiveQuery db placeholder_sql max_results
        = _execute_customers_query db placeholder_sql max_results := by
      simp only [routeLiveQuery]
      rw [if_pos (by decide)]
    rw [hroute]
    simp only [_execute_customers_query]
    rw [if_pos (by decide), hdb]
  · intro g query hbad hnone
    have hc : (decide (g = "") || pyIn "ERROR:" g || pyIn "Failed to generate" g) = true := by
      rcases hbad with hb | hb | hb <;> simp [hb]
    simp only [resolve_sql, ensure_valid_sql, hc, if_true, hnone]

/-- Claim C10, witness: with one live customer row the placeholder resolves
to a count of 1, with no `Query pattern not recognized` row. -/
theorem claim10_placeholder_counts_witness :
    execute_sql_query (some ⟨[[("name", JValue.s "Acme")]], [], "2025-10-01", none, none⟩)
        placeholder_sql 7 = [[("count", JValue.num 1)]] := by
  have h := claim10_placeholder_counts ⟨[[("name", JValue.s "Acme")]], [], "2025-10-01", none, none⟩ 7 rfl
  simpa using h.2.2.1
